import Mathlib

/-!
Verification development for the WhatsApp chat analyzer repository.

The repository ships one source file, `src/1_Main_App.py`, which contains the
Streamlit page `whatsapp_chat_analyzer`: an admin gate, a file upload + UTF-8
decode step, a call `df = preprocess_chat(chat_data)` to the log parser
(`chat_parser.py`, which is not part of the source tree), a datetime coercion
and drop step, and summary statistics computed over the columns `date`,
`user`, `message` of the parsed table.

This file embeds, shallowly:
* the dashboard pipeline of `src/1_Main_App.py` (lines 16-52), with the
  missing `preprocess_chat` and the pandas `to_datetime` coercion taken as
  function parameters;
* the log parser itself, modelled from the specification (its code,
  `chat_parser.py`, is absent from the source tree).
-/

namespace ChatApp

/-! ## Substring machinery

Python's `in` operator and `pandas.Series.str.contains` (with a plain or
trivially-regex pattern, as at `src/1_Main_App.py` lines 45-46) test whether a
pattern occurs as a contiguous substring. We implement the check on character
lists and prove it equivalent to `List.IsInfix`. -/

/-- `startsWithChars p s` checks that `p` occurs at the start of `s`. -/
def startsWithChars : List Char → List Char → Bool
  | [], _ => true
  | _ :: _, [] => false
  | p :: ps, c :: cs => decide (p = c) && startsWithChars ps cs

/-- `hasSubAux p s` checks that `p` occurs as a contiguous substring of `s`. -/
def hasSubAux (p : List Char) : List Char → Bool
  | [] => startsWithChars p []
  | c :: cs => startsWithChars p (c :: cs) || hasSubAux p cs

/-- Substring test on strings: the semantics of Python `in` /
`str.contains` with a literal pattern. -/
def hasSubstr (s pat : String) : Bool := hasSubAux pat.data s.data

/-! ## Content predicates of the dashboard (src/1_Main_App.py lines 44-46) -/

/-- The media placeholder literal used at `src/1_Main_App.py` line 45. -/
def mediaPlaceholder : String := "<Media omitted>"

/-- Line 45: `df['message'].str.contains('<Media omitted>')` — a message is
counted as media exactly when the placeholder occurs anywhere in it. -/
def media_counted (msg : String) : Bool := hasSubstr msg mediaPlaceholder

/-- Line 46: `df['message'].str.contains(r'http[s]?://', regex=True)` — the
regex matches a message exactly when `http://` or `https://` occurs in it. -/
def link_counted (msg : String) : Bool :=
  hasSubstr msg "http://" || hasSubstr msg "https://"

/-- Helper for `countWords`: fold over the characters keeping an
inside-a-word flag, counting maximal whitespace-free runs. -/
def countWordsAux : List Char → Bool → Nat
  | [], _ => 0
  | c :: cs, inWord =>
    if c.isWhitespace then countWordsAux cs false
    else (if inWord then 0 else 1) + countWordsAux cs true

/-- Line 44: `len(x.split())` — Python `str.split()` with no separator splits
on whitespace runs and drops empty pieces, so the word count is the number of
maximal whitespace-free runs. -/
def countWords (s : String) : Nat := countWordsAux s.data false

/-! ## Data model of the dashboard pipeline -/

/-- A wall-clock timestamp (calendar date plus time of day, no timezone), as
the specification's data model prescribes for parsed records. -/
structure Timestamp where
  year : Nat
  month : Nat
  day : Nat
  hour : Nat
  minute : Nat
deriving DecidableEq

/-- One row of the table returned by `preprocess_chat`, as the caller reads
it: `src/1_Main_App.py` accesses exactly the columns `date` (line 31),
`message` (lines 44-46, 87, 109, 128, 145) and `user` (lines 124, 137) of the
parsed table.  The `date` column holds the raw value still to be coerced by
`pd.to_datetime` at line 31. -/
structure RawRow where
  date : String
  user : String
  message : String
deriving DecidableEq

/-- A row after the coercion and drop of lines 31-32: its date is a real
timestamp. -/
structure Row where
  date : Timestamp
  user : String
  message : String
deriving DecidableEq

/-- Lines 31-32: `pd.to_datetime(df['date'], errors='coerce')` maps each date
value to a datetime or to NaT, and `df.dropna(subset=['date'])` then removes
the NaT rows.  `toDT` stands for the pandas datetime coercion (external
library code): `none` is NaT. -/
def coerceAndDrop (toDT : String → Option Timestamp) (df : List RawRow) :
    List Row :=
  df.filterMap fun r => (toDT r.date).map fun d => ⟨d, r.user, r.message⟩

/-- The four summary metrics of lines 43-46. -/
structure Stats where
  messages : Nat
  words : Nat
  media : Nat
  links : Nat
deriving DecidableEq

/-- Lines 43-46: message count, word count, media count, link count, computed
over the post-drop table. -/
def analyzerStats (df : List Row) : Stats :=
  { messages := df.length
  , words := (df.map fun r => countWords r.message).sum
  , media := (df.filter fun r => media_counted r.message).length
  , links := (df.filter fun r => link_counted r.message).length }

/-- The caller-visible outcome of one run of `whatsapp_chat_analyzer`:
the login warning of lines 17-19, the no-upload idle state, the `st.error`
branch of lines 156-157, or a rendered page carrying the stored dataframe of
line 35 and the statistics of lines 43-52. -/
inductive AppOutcome where
  | loginWarning
  | idle
  | errorShown
  | rendered (chat_df : List Row) (stats : Stats)
deriving DecidableEq

/-- Whether a decode result is an error. -/
def isErr : Except Unit String → Bool
  | Except.error _ => true
  | Except.ok _ => false

/-- `src/1_Main_App.py` lines 16-52 and 156-157, shallowly embedded.
`parse` stands for `chat_parser.preprocess_chat` (not in the source tree) and
`toDT` for the pandas datetime coercion; both enter as parameters.
`adminFlag` is `st.session_state.get("admin_logged_in", False)` before the
`get` default is applied (`none` = flag never set); `upload` is `none` when no
file was uploaded, and otherwise carries the UTF-8 decode result of line 27
(`Except.error` = `UnicodeDecodeError`, routed to `st.error` by the
`try/except` of lines 26 and 156-157). -/
def whatsapp_chat_analyzer (parse : String → List RawRow)
    (toDT : String → Option Timestamp)
    (adminFlag : Option Bool)
    (upload : Option (Except Unit String)) : AppOutcome :=
  if adminFlag.getD false then
    match upload with
    | none => AppOutcome.idle
    | some (Except.error _) => AppOutcome.errorShown
    | some (Except.ok text) =>
      let df := coerceAndDrop toDT (parse text)
      AppOutcome.rendered df (analyzerStats df)
  else AppOutcome.loginWarning

/-- The distinct columns of the parsed table that `src/1_Main_App.py` reads,
in order of first access: `date` (line 31), `message` (line 44), `user`
(line 124).  Every other column the page touches (`day_name`, `hour`,
`month`, `msg_length`, `day`) is a derived column the page itself writes. -/
def analyzerReadColumns : List String := ["date", "message", "user"]

/-- Follows the claim's words (spec §6, Output): the four logical columns the
specification asserts the parsed table has.  Stated for comparison with
`analyzerReadColumns`, which is transcribed from the source. -/
def specClaimedColumns : List String := ["timestamp", "sender", "body", "kind"]

/-! ## The log parser, modelled from the specification

The parser itself — `chat_parser.preprocess_chat` — is code of this
repository that is not in the source tree; only its caller is.  The
definitions below are therefore modelled from the specification (§3, §4, §8):
line classification, decoding of the header grammar
`M/D/YY, H:MM - Sender: message` with configurable date-field order,
folding of continuation lines, skipped-line counting, and content
classification of the assembled body. -/

/-- Modelled from the spec: the date-field-order configuration value
(day-first vs month-first) of §6; `chat_parser.py` is missing from the
source tree. -/
inductive DateOrder where
  | dayFirst
  | monthFirst
deriving DecidableEq

/-- Numeric value of a decimal digit character. -/
def digitVal (c : Char) : Nat := c.toNat - 48

/-- Consume one or two leading decimal digits, returning their value and the
rest of the characters; fails on a non-digit. -/
def parseNat2 : List Char → Option (Nat × List Char)
  | [] => none
  | c :: cs =>
    if c.isDigit then
      match cs with
      | c2 :: cs2 =>
        if c2.isDigit then some (10 * digitVal c + digitVal c2, cs2)
        else some (digitVal c, cs)
      | [] => some (digitVal c, [])
    else none

/-- Consume exactly two leading decimal digits. -/
def parse2Digits : List Char → Option (Nat × List Char)
  | c1 :: c2 :: cs =>
    if c1.isDigit && c2.isDigit then
      some (10 * digitVal c1 + digitVal c2, cs)
    else none
  | _ => none

/-- Consume an expected literal character sequence. -/
def dropLit : List Char → List Char → Option (List Char)
  | [], s => some s
  | p :: ps, c :: cs => if decide (p = c) then dropLit ps cs else none
  | _ :: _, [] => none

/-- Split a character sequence at the first occurrence of the delimiter
`": "` into the part before it and the part after it; fails when the
delimiter does not occur.  Modelled from the spec (§4.2): the sender field is
separated from the message body by the first `": "` after the timestamp. -/
def splitSenderBody : List Char → Option (List Char × List Char)
  | [] => none
  | ':' :: ' ' :: rest => some ([], rest)
  | c :: rest => (splitSenderBody rest).map fun p => (c :: p.1, p.2)

/-- Modelled from the spec (§3): the decoded result of a successful header
parse — timestamp, sender (`none` for sender-less system lines) and the
residual text of the line. -/
structure HeaderMatch where
  ts : Timestamp
  sender : Option String
  residual : String
deriving DecidableEq

/-- Modelled from the spec (§4.2): the Header Decoder for the grammar
`M/D/YY, H:MM - Sender: message` (24-hour time), with the configured
date-field order deciding which of the first two numbers is the day and
which the month, and with a two-digit year mapped into the 2000s.  A line
that matches the timestamp prefix but has no `": "` delimiter decodes with
`sender = none` (a system notice).  Any other line fails to decode, which
classifies it as a continuation.  The bracketed grammar variant and 12-hour
times also named by §4.2 are exercised by no claim and are not modelled. -/
def decodeHeader (cfg : DateOrder) (line : String) : Option HeaderMatch := do
  let (a, r1) ← parseNat2 line.data
  let r2 ← dropLit [ '/' ] r1
  let (b, r3) ← parseNat2 r2
  let r4 ← dropLit [ '/' ] r3
  let (y, r5) ← parse2Digits r4
  let r6 ← dropLit [ ',', ' ' ] r5
  let (h, r7) ← parseNat2 r6
  let r8 ← dropLit [ ':' ] r7
  let (mi, r9) ← parse2Digits r8
  let r10 ← dropLit [ ' ', '-', ' ' ] r9
  let (dd, mo) :=
    match cfg with
    | DateOrder.dayFirst => (a, b)
    | DateOrder.monthFirst => (b, a)
  let ts : Timestamp := ⟨2000 + y, mo, dd, h, mi⟩
  match splitSenderBody r10 with
  | some (s, bdy) => some ⟨ts, some (String.mk s), String.mk bdy⟩
  | none => some ⟨ts, none, String.mk r10⟩

/-- The record kinds of the spec's data model (§3). -/
inductive Kind where
  | Text
  | Media
  | SystemNotice
  | LinkBearing
deriving DecidableEq

/-- Whitespace test used for trimming. -/
def isSpaceChar (c : Char) : Bool := c.isWhitespace

/-- Strip leading and trailing whitespace from a character list. -/
def trimChars (cs : List Char) : List Char :=
  ((cs.dropWhile isSpaceChar).reverse.dropWhile isSpaceChar).reverse

/-- Modelled from the spec (§4.3): the Media condition — the body exactly
equals the media placeholder, or contains it as its entire informative
content (modelled as equality after stripping surrounding whitespace). -/
def mediaClaim (b : String) : Bool :=
  decide (b = mediaPlaceholder) ||
    decide (String.mk (trimChars b.data) = mediaPlaceholder)

/-- The reserved sentinel sender for system notices (§3). -/
def sysSender : String := "system"

/-- Modelled from the spec (§4.3): content classification of the fully
assembled body — SystemNotice when the sender is absent, regardless of body
content; otherwise Media, then LinkBearing, then Text. -/
def classify (senderless : Bool) (body : String) : Kind :=
  if senderless then Kind.SystemNotice
  else if mediaClaim body then Kind.Media
  else if link_counted body then Kind.LinkBearing
  else Kind.Text

/-- Modelled from the spec (§3): the parser's output unit. -/
structure ChatRecord where
  timestamp : Timestamp
  sender : String
  body : String
  kind : Kind
deriving DecidableEq

/-- Modelled from the spec (§4.3): the record currently open in the Record
Assembler — the decoded header fields plus the continuation lines folded in
so far (most recent first). -/
structure OpenRec where
  ts : Timestamp
  sender : Option String
  firstLine : String
  conts : List String

/-- Join lines with newline separators (the inverse of line splitting). -/
def joinLines : List String → String
  | [] => ""
  | [ s ] => s
  | s :: rest => s ++ "\n" ++ joinLines rest

/-- Modelled from the spec (§4.3): finalizing an open record — reassemble the
body from the header residual and the folded continuation lines with
preserved newlines, substitute the sentinel sender for sender-less records,
and classify the assembled body. -/
def finalize (o : OpenRec) : ChatRecord :=
  let body := joinLines (o.firstLine :: o.conts.reverse)
  ⟨o.ts, o.sender.getD sysSender, body, classify o.sender.isNone body⟩

/-- Modelled from the spec (§4.1, §4.3): the Record Assembler consuming the
classified line stream.  A header line finalizes and emits the open record
and opens a new one; a continuation line is folded into the open record, or
counted as skipped when no record is open; the end of input finalizes the
last open record.  Returns the emitted records and the skipped-line count. -/
def runLines (cfg : DateOrder) : Option OpenRec → List String →
    List ChatRecord × Nat
  | cur, [] =>
    match cur with
    | some o => ([finalize o], 0)
    | none => ([], 0)
  | cur, l :: rest =>
    match decodeHeader cfg l with
    | some h =>
      let res := runLines cfg (some ⟨h.ts, h.sender, h.residual, []⟩) rest
      match cur with
      | some o => (finalize o :: res.1, res.2)
      | none => res
    | none =>
      match cur with
      | some o => runLines cfg (some ⟨o.ts, o.sender, o.firstLine, l :: o.conts⟩) rest
      | none =>
        let res := runLines cfg none rest
        (res.1, res.2 + 1)

/-- Split a string into its lines at newline characters (the semantics of
Python `text.split("\n")`). -/
def splitLinesAux : List Char → List Char → List String
  | [], acc => [String.mk acc.reverse]
  | c :: cs, acc =>
    if decide (c = '\n') then String.mk acc.reverse :: splitLinesAux cs []
    else splitLinesAux cs (c :: acc)

/-- Split a string into lines. -/
def splitLines (s : String) : List String := splitLinesAux s.data []

/-- Modelled from the spec (§2, §5, §6): the full parse invocation — a pure
function from raw text plus the date-order configuration to the ordered
record sequence and the skipped-line count.  This models
`chat_parser.preprocess_chat`, which is missing from the source tree. -/
def parseChat (cfg : DateOrder) (text : String) : List ChatRecord × Nat :=
  runLines cfg none (splitLines text)

/-! ## Helper lemmas -/

/-- `startsWithChars` decides the `List.IsPrefix` relation. -/
theorem startsWithChars_iff_prefixRel (p : List Char) :
    ∀ s : List Char, startsWithChars p s = true ↔ p <+: s := by
  induction p with
  | nil => intro s; simp [ startsWithChars, List.nil_prefix]
  | cons a ps ih =>
    intro s
    cases s with
    | nil => simp [ startsWithChars]
    | cons c cs => simp [ startsWithChars, List.cons_prefix_cons, ih]

/-- `hasSubAux` decides the `List.IsInfix` relation. -/
theorem hasSubAux_iff_infixRel (p : List Char) :
    ∀ s : List Char, hasSubAux p s = true ↔ p <:+: s := by
  intro s
  induction s with
  | nil => cases p <;> simp [ hasSubAux, startsWithChars]
  | cons c cs ih =>
    simp [ hasSubAux, List.infix_cons_iff, ih, startsWithChars_iff_prefixRel]

/-- `hasSubstr s pat` holds exactly when the characters of `pat` occur
contiguously inside the characters of `s`. -/
theorem hasSubstr_iff_infixRel (s pat : String) :
    hasSubstr s pat = true ↔ pat.data <:+: s.data :=
  hasSubAux_iff_infixRel pat.data s.data

/-- With a record open, the Record Assembler never skips a line: the skip
count of a run started in the open state is zero. -/
theorem runLines_skip_of_openState (cfg : DateOrder) :
    ∀ (lines : List String) (o : OpenRec),
      (runLines cfg (some o) lines).2 = 0 := by
  intro lines
  induction lines with
  | nil => intro o; rfl
  | cons l rest ih =>
    intro o
    cases hdec : decodeHeader cfg l with
    | some h => simp [ runLines, hdec, ih]
    | none => simp [ runLines, hdec, ih]

/-- The length of the coerced-and-dropped table counts the raw rows with a
coercible date. -/
theorem length_coerceAndDrop (toDT : String → Option Timestamp)
    (raws : List RawRow) :
    (coerceAndDrop toDT raws).length =
      raws.countP fun r => (toDT r.date).isSome := by
  induction raws with
  | nil => rfl
  | cons r rest ih =>
    cases hd : toDT r.date with
    | none =>
      simp [ coerceAndDrop, List.filterMap_cons, hd, List.countP_cons] at ih ⊢
      exact ih
    | some d =>
      simp [ coerceAndDrop, List.filterMap_cons, hd, List.countP_cons] at ih ⊢
      exact ih

/-- Filtering the coerced-and-dropped table by a message predicate counts the
raw rows whose date is coercible and whose message satisfies the predicate. -/
theorem filter_length_coerceAndDrop (toDT : String → Option Timestamp)
    (p : String → Bool) (raws : List RawRow) :
    ((coerceAndDrop toDT raws).filter fun row => p row.message).length =
      raws.countP fun r => (toDT r.date).isSome && p r.message := by
  induction raws with
  | nil => rfl
  | cons r rest ih =>
    cases hd : toDT r.date with
    | none =>
      simp [ coerceAndDrop, List.filterMap_cons, hd, List.countP_cons] at ih ⊢
      exact ih
    | some d =>
      by_cases hp : p r.message <;>
        simp [ coerceAndDrop, List.filterMap_cons, hd, List.countP_cons,
          List.filter_cons, hp] at ih ⊢ <;>
        exact ih

/-- Summing a message-derived value over the coerced-and-dropped table equals
summing it over the raw rows whose date is coercible. -/
theorem sum_words_coerceAndDrop (toDT : String → Option Timestamp)
    (raws : List RawRow) :
    ((coerceAndDrop toDT raws).map fun row => countWords row.message).sum =
      ((raws.filter fun r => (toDT r.date).isSome).map
        fun r => countWords r.message).sum := by
  induction raws with
  | nil => rfl
  | cons r rest ih =>
    cases hd : toDT r.date with
    | none =>
      simp [ coerceAndDrop, List.filterMap_cons, hd, List.filter_cons] at ih ⊢
      exact ih
    | some d =>
      simp [ coerceAndDrop, List.filterMap_cons, hd, List.filter_cons] at ih ⊢
      omega

/-! ## Claims -/

/-- Claim C1: parsing the input
`"12/1/23, 10:05 - Alice: Hello there\nnice to meet you\n12/1/23, 10:06 - Bob: Hi!"`
with month-first configuration emits exactly two records — the first with
timestamp 2023-12-01T10:05, sender "Alice", body
"Hello there\nnice to meet you" (the continuation line folded in with a
preserved newline) and kind Text; the second with timestamp 2023-12-01T10:06,
sender "Bob", body "Hi!" and kind Text — and no skipped lines. -/
theorem C1_concrete_scenario :
    parseChat DateOrder.monthFirst
        "12/1/23, 10:05 - Alice: Hello there\nnice to meet you\n12/1/23, 10:06 - Bob: Hi!" =
      ([ ⟨⟨2023, 12, 1, 10, 5⟩, "Alice", "Hello there\nnice to meet you", Kind.Text⟩,
         ⟨⟨2023, 12, 1, 10, 6⟩, "Bob", "Hi!", Kind.Text⟩ ], 0) := by
  decide

/-- Claim C2, counterexample: the caller reads the parsed table through the
column `date`, which is not among the spec's four claimed columns, and never
reads a `kind` or `timestamp` column at all — so the table the parse call
returns does not have the four logical columns timestamp, sender, body, kind
read by downstream consumers. -/
theorem C2_counterexample :
    "date" ∈ analyzerReadColumns ∧ "date" ∉ specClaimedColumns ∧
    "kind" ∉ analyzerReadColumns ∧ "timestamp" ∉ analyzerReadColumns := by
  decide

/-- Claim C2 (amended): the tabular structure the parse call returns is read
by every downstream consumer through exactly the three logical columns
`date`, `user`, `message` — the whole statistics pipeline is a function of
those three fields of each row. -/
theorem C2_three_columns (d1 d2 : List Row)
    (h : d1.map (fun r => (r.date, r.user, r.message)) =
      d2.map (fun r => (r.date, r.user, r.message))) :
    analyzerStats d1 = analyzerStats d2 := by
  have inj : Function.Injective (fun r : Row => (r.date, r.user, r.message)) := by
    intro a b hab
    cases a
    cases b
    simpa using hab
  rw [ List.map_injective_iff.mpr inj h]

/-- Witness for C2_three_columns at a concrete one-row table. -/
theorem C2_three_columns_witness :
    ([ (⟨⟨2023, 12, 1, 10, 5⟩, "Alice", "Hi"⟩ : Row) ].map
        (fun r => (r.date, r.user, r.message)) =
      [ (⟨⟨2023, 12, 1, 10, 5⟩, "Alice", "Hi"⟩ : Row) ].map
        (fun r => (r.date, r.user, r.message))) ∧
    analyzerStats [ ⟨⟨2023, 12, 1, 10, 5⟩, "Alice", "Hi"⟩ ] =
      analyzerStats [ ⟨⟨2023, 12, 1, 10, 5⟩, "Alice", "Hi"⟩ ] :=
  ⟨rfl, C2_three_columns
    [ ⟨⟨2023, 12, 1, 10, 5⟩, "Alice", "Hi"⟩ ]
    [ ⟨⟨2023, 12, 1, 10, 5⟩, "Alice", "Hi"⟩ ] rfl⟩

/-- Claim C3, counterexample: the message "see <Media omitted> and more" is
counted as media by the code (line 45 checks containment) although it neither
equals the placeholder nor contains it as its entire informative content; and
the message "photo: <Media omitted> plus https://a.example" is counted as
media and as link-bearing simultaneously, so the media classification does
not take priority over every other classification. -/
theorem C3_counterexample :
    media_counted "see <Media omitted> and more" = true ∧
    mediaClaim "see <Media omitted> and more" = false ∧
    media_counted "photo: <Media omitted> plus https://a.example" = true ∧
    link_counted "photo: <Media omitted> plus https://a.example" = true := by
  decide

/-- Claim C3 (amended): a record is counted in the media statistic exactly
when its fully assembled body contains the substring `<Media omitted>`
anywhere (equality is not required), and the media count of the statistics
pipeline counts exactly those records; the check is independent of the other
content classifications rather than taking priority over them. -/
theorem C3_media_containment :
    (∀ msg : String,
      media_counted msg = true ↔ mediaPlaceholder.data <:+: msg.data) ∧
    (∀ df : List Row,
      (analyzerStats df).media = df.countP fun r => media_counted r.message) := by
  constructor
  · intro msg
    exact hasSubstr_iff_infixRel msg mediaPlaceholder
  · intro df
    exact (List.countP_eq_length_filter _ df).symm

/-- Claim C4, counterexample: the message "<Media omitted> https://example.com"
qualifies as media under the code's containment check, yet it is still counted
in the links statistic — media does not win over the link classification. -/
theorem C4_counterexample :
    media_counted "<Media omitted> https://example.com" = true ∧
    link_counted "<Media omitted> https://example.com" = true := by
  decide

/-- Claim C4 (amended): a record is counted in the links statistic exactly
when its fully assembled body contains a substring starting `http://` or
`https://`, regardless of the media placeholder (media takes no priority);
the check applies to the assembled body, so a link arriving on a continuation
line still marks the record — witnessed by a parse whose only link sits on
the continuation line and whose record is link-bearing. -/
theorem C4_link_containment :
    (∀ msg : String,
      link_counted msg = true ↔
        ("http://").data <:+: msg.data ∨ ("https://").data <:+: msg.data) ∧
    (∀ df : List Row,
      (analyzerStats df).links = df.countP fun r => link_counted r.message) ∧
    ((parseChat DateOrder.monthFirst
        "12/1/23, 10:05 - Alice: hello\ncheck https://example.com now").1.map
      fun r => (link_counted r.body, r.kind)) = [ (true, Kind.LinkBearing) ] := by
  refine ⟨fun msg => ?_, fun df => (List.countP_eq_length_filter _ df).symm, by decide⟩
  simp [ link_counted, hasSubstr_iff_infixRel]

/-- Claim C5, counterexample: on an input whose first line is unrecognizable
preamble, the parse (as the spec models it) skips one line, yet the caller's
outcome is a plain rendered page: the value the caller receives and stores is
the record table alone, and no skipped-line count accompanies it (the
outcome carries only the table and the four statistics transcribed from
src/1_Main_App.py, none of which is a skip count, and no warning is shown). -/
theorem C5_counterexample :
    (parseChat DateOrder.monthFirst "export header junk\n12/1/23, 10:05 - Alice: Hi").2 = 1 ∧
    whatsapp_chat_analyzer
        (fun _ => [ ⟨"2023-12-01 10:05", "Alice", "Hi"⟩ ])
        (fun s => if s = "2023-12-01 10:05" then some ⟨2023, 12, 1, 10, 5⟩ else none)
        (some true)
        (some (Except.ok "export header junk\n12/1/23, 10:05 - Alice: Hi")) =
      AppOutcome.rendered [ ⟨⟨2023, 12, 1, 10, 5⟩, "Alice", "Hi"⟩ ] ⟨1, 1, 0, 0⟩ :=
  ⟨by decide, by decide⟩

/-- Claim C5 (amended): a parse invocation is a pure function of the raw text
plus the format configuration; at the parser level its result carries the
record sequence together with a skipped-line count, and that count counts
exactly the leading lines before the first decodable header (the unrecognized
preamble and orphan continuation lines) — but the count is not returned to
the caller, which receives the record table alone. -/
theorem C5_skip_count_is_preamble (cfg : DateOrder) (text : String) :
    (parseChat cfg text).2 =
      ((splitLines text).takeWhile fun l => (decodeHeader cfg l).isNone).length := by
  unfold parseChat
  generalize splitLines text = lines
  induction lines with
  | nil => rfl
  | cons l rest ih =>
    cases hdec : decodeHeader cfg l with
    | some h => simp [ runLines, hdec, runLines_skip_of_openState, List.takeWhile_cons]
    | none => simp [ runLines, hdec, List.takeWhile_cons, ih]

/-- Claim C6: with the parser modelled as total (the spec's Assembler never
raises for malformed lines), the call shows the fatal error branch exactly
when the uploaded file's bytes fail to decode as UTF-8; a successfully
decoded input never reaches the error branch, whatever the parse produces. -/
theorem C6_fatal_iff_decode_failure (parse : String → List RawRow)
    (toDT : String → Option Timestamp) (u : Except Unit String) :
    (whatsapp_chat_analyzer parse toDT (some true) (some u) =
        AppOutcome.errorShown) ↔ isErr u = true := by
  cases u <;> simp [ whatsapp_chat_analyzer, isErr]

/-- Claim C7: the ambiguous date string "03/04/23" parses to the 3rd of April
under day-first configuration and to the 4th of March under month-first
configuration — different calendar dates — and within one parse call the
configured order is applied uniformly to every header (both headers of the
two-message input receive the same interpretation). -/
theorem C7_date_order :
    ((parseChat DateOrder.dayFirst "03/04/23, 10:00 - Ann: x\n03/04/23, 11:00 - Ben: y").1.map
      fun r => (r.timestamp.year, r.timestamp.month, r.timestamp.day)) =
        [ (2023, 4, 3), (2023, 4, 3) ] ∧
    ((parseChat DateOrder.monthFirst "03/04/23, 10:00 - Ann: x\n03/04/23, 11:00 - Ben: y").1.map
      fun r => (r.timestamp.year, r.timestamp.month, r.timestamp.day)) =
        [ (2023, 3, 4), (2023, 3, 4) ] ∧
    ((2023, 4, 3) : Nat × Nat × Nat) ≠ (2023, 3, 4) := by
  decide

/-- Claim C8: parsing the same input twice yields identical record sequences
and identical skipped-line counts — the parse result depends on nothing but
the configuration and the text. -/
theorem C8_idempotent (cfg : DateOrder) (t1 t2 : String) (h : t1 = t2) :
    parseChat cfg t1 = parseChat cfg t2 := by
  rw [ h]

/-- Witness for C8_idempotent at a concrete input. -/
theorem C8_idempotent_witness :
    ("12/1/23, 10:05 - Alice: Hi" : String) = "12/1/23, 10:05 - Alice: Hi" ∧
    parseChat DateOrder.monthFirst "12/1/23, 10:05 - Alice: Hi" =
      parseChat DateOrder.monthFirst "12/1/23, 10:05 - Alice: Hi" :=
  ⟨rfl, C8_idempotent DateOrder.monthFirst _ _ rfl⟩

/-- Claim C9: whenever the session flag `admin_logged_in` is anything but
`some true` (unset, or set to false), the Chat Analyzer page shows the login
warning and nothing else: the outcome is the warning for every possible
upload and every possible parser, so the file uploader is never offered and
the parser is never invoked. -/
theorem C9_admin_gate (parse : String → List RawRow)
    (toDT : String → Option Timestamp)
    (adminFlag : Option Bool) (upload : Option (Except Unit String))
    (h : adminFlag ≠ some true) :
    whatsapp_chat_analyzer parse toDT adminFlag upload =
      AppOutcome.loginWarning := by
  cases adminFlag with
  | none => rfl
  | some b =>
    cases b with
    | false => rfl
    | true => exact absurd rfl h

/-- Witness for C9_admin_gate with the flag never set. -/
theorem C9_admin_gate_witness :
    ((none : Option Bool) ≠ some true) ∧
    whatsapp_chat_analyzer (fun _ => []) (fun _ => none) none none =
      AppOutcome.loginWarning :=
  ⟨by decide, C9_admin_gate (fun _ => []) (fun _ => none) none none (by decide)⟩

/-- Claim C10: the rows whose date value the pandas coercion cannot turn into
a datetime are removed before any statistic is computed: each statistic of
the rendered page is computed over exactly the raw rows with a coercible
date — the message count counts them, the word sum ranges over them, and the
media and link counts count only coercible rows satisfying the respective
content predicate. -/
theorem C10_uncoercible_dropped (toDT : String → Option Timestamp)
    (raws : List RawRow) :
    analyzerStats (coerceAndDrop toDT raws) =
      { messages := raws.countP fun r => (toDT r.date).isSome
      , words := ((raws.filter fun r => (toDT r.date).isSome).map
          fun r => countWords r.message).sum
      , media := raws.countP fun r =>
          (toDT r.date).isSome && media_counted r.message
      , links := raws.countP fun r =>
          (toDT r.date).isSome && link_counted r.message } := by
  show Stats.mk _ _ _ _ = _
  rw [ length_coerceAndDrop, sum_words_coerceAndDrop,
    filter_length_coerceAndDrop, filter_length_coerceAndDrop]

end ChatApp
